import Mathlib

/-!
Verification development for a PDF batch-processing pipeline.

The repository has two parallel implementations of the reading stage:
`src/processor.py` (PyPDF2-based, raises `PDFProcessingError` on failure)
and `src/utils/file_utils.py` (pdfplumber-based, returns `None` on
failure).  Both are embedded below, together with the validation stage
(`preprocess_content`), the aggregation loop of `process_pdfs`, the
output stage (`save_output` in `src/utils/pdf_utils.py`) and the text
cleaner (`clean_text` in `src/main.py`).

External effects are made explicit: the filesystem / parsing library is
a function from a path to a `ReadOutcome`, the completion order of the
thread pool is an arbitrary permutation of the submitted paths, and the
clock is a string parameter.
-/

namespace PdfPipeline

/-- Python whitespace predicate used by `str.strip` and the regex class
backslash-s, restricted to the ASCII range (the sources never depend on
non-ASCII whitespace): space, tab, newline, vertical tab, form feed,
carriage return. -/
def pyIsSpace (c : Char) : Bool :=
  c = ' ' || c = '\t' || c = '\n' || c = '\x0b' || c = '\x0c' || c = '\x0d'

/-- Embedding of Python `str.strip()` on the character list: drop
whitespace from the front, then from the back. -/
def stripData (l : List Char) : List Char :=
  (l.dropWhile pyIsSpace).rdropWhile pyIsSpace

/-- Embedding of Python `str.strip()` on strings. -/
def pyStrip (s : String) : String :=
  ⟨stripData s.data⟩

/-- Embedding of Python `os.path.basename` / `Path(p).name`: the part of
the path after the last slash. -/
def pathName (p : String) : String :=
  ⟨(p.data.reverse.takeWhile (fun c => c ≠ '/')).reverse⟩

/-- The literal marker required by `preprocess_content`
(`src/processor.py`): the source checks `"expected_keyword" not in content`. -/
def expected_keyword : String := "expected_keyword"

/-- Embedding of `InvalidContentError` (`src/utils/error_handling.py`):
carries the offending path and the rejected content. -/
structure InvalidContentError where
  file_path : String
  content : String
deriving Repr, DecidableEq

/-- Embedding of `PDFProcessingError` (`src/utils/error_handling.py`):
carries the error message. -/
structure PDFProcessingError where
  message : String
deriving Repr, DecidableEq

/-- Embedding of `preprocess_content` (`src/processor.py` lines 56-72):
`if not content or "expected_keyword" not in content: raise
InvalidContentError(file_path, content); return content.strip()`.
Raising is modelled as `Except.error`. -/
def preprocess_content (file_path : String) (content : String) :
    Except InvalidContentError String :=
  if content = "" ∨ ¬ expected_keyword.data <:+: content.data then
    .error ⟨file_path, content⟩
  else
    .ok (pyStrip content)

example : preprocess_content "a.pdf" "  expected_keyword here " =
    .ok "expected_keyword here" := rfl

example : preprocess_content "a.pdf" "nothing" =
    .error ⟨"a.pdf", "nothing"⟩ := rfl

example : preprocess_content "a.pdf" "" = .error ⟨"a.pdf", ""⟩ := rfl

/-- Outcome of the external parsing library / filesystem on one path.
`pages ps` is a successful open where page `i` yields `ps[i]`
(`extract_text()` may return `None`, hence `Option String`); the other
constructors are the exceptions the two readers handle:
`PdfReadError`, `MemoryError`, `PermissionError`, `FileNotFoundError`
(modelled through `os.path.exists` returning false) and any other
exception. -/
inductive ReadOutcome where
  | pages (ps : List (Option String))
  | pdfReadError (msg : String)
  | memoryError (msg : String)
  | permissionError
  | notFound
  | otherError (msg : String)
deriving Repr

/-- The per-page text the readers accumulate: Python
`page.extract_text() or ''` / `page_text if page_text else ''`, both of
which turn `None` (and `""`) into `""`. -/
def pageTextOrEmpty (p : Option String) : String :=
  p.getD ""

/-- The page loop of `read_pdf_file` in `src/processor.py`:
`text = []; for page in reader.pages: text.append(page.extract_text() or '')`. -/
def collectPageTexts (ps : List (Option String)) : List String :=
  ps.foldl (fun text p => text ++ [pageTextOrEmpty p]) []

/-- Embedding of `read_pdf_file` (`src/processor.py` lines 25-54).  The
environment `env` gives the outcome of opening/parsing each path.  On
success the code returns `" ".join(text).strip()`; each handled
exception is re-raised as a `PDFProcessingError` (modelled by
`Except.error`) whose message names the offending file.  `PermissionError`
and `FileNotFoundError` from `open` fall into the generic
`except Exception` arm. -/
def processor_read_pdf_file (env : String → ReadOutcome) (pdf_file : String) :
    Except PDFProcessingError String :=
  match env pdf_file with
  | .pages ps => .ok (pyStrip (String.intercalate " " (collectPageTexts ps)))
  | .pdfReadError _ => .error ⟨"Failed to read PDF file: " ++ pdf_file⟩
  | .memoryError _ => .error ⟨"Memory error processing PDF file: " ++ pdf_file⟩
  | .permissionError =>
      .error ⟨"An unknown error occurred while reading the PDF: " ++ pdf_file⟩
  | .notFound =>
      .error ⟨"An unknown error occurred while reading the PDF: " ++ pdf_file⟩
  | .otherError _ =>
      .error ⟨"An unknown error occurred while reading the PDF: " ++ pdf_file⟩

/-- Embedding of `read_pdf_file` (`src/utils/file_utils.py` lines 29-58):
returns `None` when the file does not exist, on `PermissionError` and on
any other exception; on success returns the page texts accumulated with
`full_text += page_text if page_text else ""` (no separator, no trim). -/
def fileUtils_read_pdf_file (env : String → ReadOutcome) (file_path : String) :
    Option String :=
  match env file_path with
  | .notFound => none
  | .pages ps => some (ps.foldl (fun full_text p => full_text ++ pageTextOrEmpty p) "")
  | .permissionError => none
  | .pdfReadError _ => none
  | .memoryError _ => none
  | .otherError _ => none

/-- One element of the `pdf_contents` list built by
`read_pdfs_concurrently` in `src/processor.py`: a dict
`{"file_name": ..., "content": ...}` where `content` is `None` when the
read raised. -/
structure PdfEntry where
  file_name : String
  content : Option String
deriving Repr, DecidableEq

/-- Embedding of `read_pdfs_concurrently` (`src/processor.py` lines
74-96).  `completed` is the order in which `as_completed` delivers the
futures — an arbitrary permutation of the submitted `pdf_files`
(hypotheses on callers state this).  Each future contributes exactly one
entry: its content on success, `None` when `future.result()` re-raised. -/
def processor_read_pdfs_concurrently (env : String → ReadOutcome)
    (completed : List String) : List PdfEntry :=
  completed.foldl (fun pdf_contents pdf_file =>
    match processor_read_pdf_file env pdf_file with
    | .ok content => pdf_contents ++ [⟨pdf_file, some content⟩]
    | .error _ => pdf_contents ++ [⟨pdf_file, none⟩]) []

/-- Embedding of `read_pdfs_concurrently` (`src/utils/file_utils.py`
lines 60-86).  Same completion-order convention; the loop body is
`if content: pdf_contents.append((file, content))`, so a `None` result
and an empty string are both dropped. -/
def fileUtils_read_pdfs_concurrently (env : String → ReadOutcome)
    (completed : List String) : List (String × String) :=
  completed.foldl (fun pdf_contents file =>
    match fileUtils_read_pdf_file env file with
    | some content => if content = "" then pdf_contents else pdf_contents ++ [(file, content)]
    | none => pdf_contents) []

/-- Truthiness of the `file_utils` read result, as tested by
`if content:` in its concurrent loop: a present, non-empty string. -/
def hasContent (env : String → ReadOutcome) (file : String) : Bool :=
  match fileUtils_read_pdf_file env file with
  | some content => content ≠ ""
  | none => false

example :
    processor_read_pdfs_concurrently (fun _ => .notFound) ["a.pdf", "b.pdf"] =
      [⟨"a.pdf", none⟩, ⟨"b.pdf", none⟩] := rfl

example :
    fileUtils_read_pdfs_concurrently (fun _ => .notFound) ["a.pdf", "b.pdf"] = [] := rfl

example :
    fileUtils_read_pdf_file (fun _ => .pages [some "a", some "b"]) "d.pdf" =
      some "ab" := rfl

example :
    processor_read_pdf_file (fun _ => .pages [some "a", none, some "b "]) "d.pdf" =
      .ok "a  b" := rfl

/-- One element of `all_data` in `process_pdfs` (`src/processor.py`):
`{"file_name": Path(pdf_file).name, "content": processed_content,
"extracted_at": datetime.now().isoformat()}`. -/
structure ValidatedRecord where
  file_name : String
  content : String
  extracted_at : String
deriving Repr, DecidableEq

/-- Modelled from the spec: the spec's `BatchResult` bundles the record
set with the four per-item outcome counters `{succeeded, skipped-empty,
rejected-invalid, failed-read}`.  The counters are not materialized in
`src/processor.py` (the code only logs per branch); they count the
branches of the `process_pdfs` loop: `content` absent (read raised) /
`content` present but empty (falsy) / `InvalidContentError` raised /
record appended. -/
structure BatchResult where
  records : List ValidatedRecord
  succeeded : Nat
  skippedEmpty : Nat
  rejectedInvalid : Nat
  failedRead : Nat
deriving Repr, DecidableEq

/-- The empty batch result every run starts from. -/
def BatchResult.initial : BatchResult := ⟨[], 0, 0, 0, 0⟩

/-- One iteration of the `for pdf_data in pdf_contents` loop of
`process_pdfs` (`src/processor.py` lines 167-187).  `if content:` is
Python truthiness, so a present-but-empty string takes the same `else`
branch as an absent one; the spec's counters separate the two cases by
the data (`None` = failed read, `""` = skipped empty). -/
def aggStep (now : String) (br : BatchResult) (e : PdfEntry) : BatchResult :=
  match e.content with
  | some content =>
      if content = "" then
        { br with skippedEmpty := br.skippedEmpty + 1 }
      else
        match preprocess_content e.file_name content with
        | .ok processed_content =>
            { br with
              records := br.records ++
                [⟨pathName e.file_name, processed_content, now⟩],
              succeeded := br.succeeded + 1 }
        | .error _ => { br with rejectedInvalid := br.rejectedInvalid + 1 }
  | none => { br with failedRead := br.failedRead + 1 }

/-- The whole aggregation loop of `process_pdfs` over the completion
stream `pdf_contents`. -/
def aggregate (now : String) (pdf_contents : List PdfEntry) : BatchResult :=
  pdf_contents.foldl (aggStep now) BatchResult.initial

/-- Embedding of the text pipeline of `process_pdfs` (`src/processor.py`
lines 139-198): concurrent read, aggregation loop, then
`if all_data: save_output(...) else: logger.warning("No content extracted
to save...")`.  Returns the batch result paired with whether
`save_output` is invoked. -/
def process_pdfs_model (env : String → ReadOutcome) (now : String)
    (completed : List String) : BatchResult × Bool :=
  let br := aggregate now (processor_read_pdfs_concurrently env completed)
  (br, !br.records.isEmpty)

example :
    aggregate "t0" [⟨"a.pdf", some "expected_keyword x"⟩, ⟨"b.pdf", none⟩,
      ⟨"c.pdf", some ""⟩, ⟨"d.pdf", some "junk"⟩] =
      ⟨[⟨"a.pdf", "expected_keyword x", "t0"⟩], 1, 1, 1, 1⟩ := rfl

/-- Outcome of the filesystem during one `save_output` call
(`src/utils/pdf_utils.py`): `makedirs` may raise (it sits outside the
`try`), `open(output_file, "w")` may raise `PermissionError` before
touching the file, and `json.dump` may raise after `open` has already
truncated the file, leaving whatever partial text was flushed. -/
inductive SaveOutcome where
  | success
  | makedirsError (msg : String)
  | openPermissionError
  | dumpError (truncText : String)
deriving Repr

/-- What one `save_output` call does, as observed by its caller and by
the durable output file. -/
structure SaveRun where
  fileAfter : Option String
  raised : Option String
  returnedFailure : Bool
  loggedError : Bool
  writeAttempts : Nat
deriving Repr, DecidableEq

/-- Embedding of `save_output` (`src/utils/pdf_utils.py` lines 5-32).
`prevFile` is the contents of the pre-existing output file (if any) and
`serialized` the JSON text of `data`.  `os.makedirs` runs outside the
`try`, so its failure propagates raw; `PermissionError` and every other
exception inside the `try` are logged and swallowed — the function
returns `None` to its caller in all non-raising cases and never retries. -/
def save_output (prevFile : Option String) (serialized : String)
    (outcome : SaveOutcome) : SaveRun :=
  match outcome with
  | .makedirsError msg => ⟨prevFile, some msg, false, false, 0⟩
  | .openPermissionError => ⟨prevFile, none, false, true, 1⟩
  | .dumpError truncText => ⟨some truncText, none, false, true, 1⟩
  | .success => ⟨some serialized, none, false, false, 1⟩

/-- Helper for `replaceRuns`: `inRun` records whether the previous
character already belonged to a run of `p`-characters (in which case the
single replacement space has been emitted already). -/
def replaceRunsAux (p : Char → Bool) (inRun : Bool) : List Char → List Char
  | [] => []
  | c :: cs =>
      if p c then
        if inRun then replaceRunsAux p true cs
        else ' ' :: replaceRunsAux p true cs
      else c :: replaceRunsAux p false cs

/-- Replace every maximal run of characters satisfying `p` by a single
space: the effect of Python `re.sub(pattern_plus, ' ', s)` for a
single-character-class pattern. -/
def replaceRuns (p : Char → Bool) (l : List Char) : List Char :=
  replaceRunsAux p false l

/-- Embedding of `clean_text` (`src/main.py` lines 14-21):
`content.strip()`, then `re.sub(r'\s+', ' ', content)`, then
`re.sub(r'[^\x00-\x7F]+', ' ', content)`. -/
def clean_text (content : String) : String :=
  let s1 := pyStrip content
  let s2 : String := ⟨replaceRuns pyIsSpace s1.data⟩
  ⟨replaceRuns (fun c => 0x7F < c.val) s2.data⟩

example : clean_text "  héllo\t\tworld é " = "h llo world  " := rfl

example : clean_text "  héllo\t\tworld" = "h llo world" := rfl

/-- One element of `all_data` in `process_pdfs` (`src/main.py` lines
80-94): the structured record keyed by basename, with the cleaned
content and the header/body/footer slices `content[:100]`,
`content[100:]`, `content[-100:]`.  The `metadata` field (an external
`PdfReader` lookup whose value never influences control flow) is left
out of the model. -/
structure MainRecord where
  file_name : String
  content : String
  header : String
  body : String
  footer : String
deriving Repr, DecidableEq

/-- Builds the `structured_data` dict of `src/main.py` for one file. -/
def mainRecord (pdf_file content : String) : MainRecord :=
  ⟨pathName pdf_file, content, ⟨content.data.take 100⟩, ⟨content.data.drop 100⟩,
    ⟨(content.data.reverse.take 100).reverse⟩⟩

/-- Embedding of the loop and output gate of `process_pdfs`
(`src/main.py` lines 60-107): concurrent read via the `file_utils`
loop, `clean_text` per item, `if content:` append of the structured
record, then `if all_data: save_output(...) else:
logger.warning("No content extracted to save.")`.  Returns `all_data`
paired with whether `save_output` is invoked. -/
def main_process_pdfs_model (env : String → ReadOutcome)
    (completed : List String) : List MainRecord × Bool :=
  let all_data := (fileUtils_read_pdfs_concurrently env completed).foldl
    (fun all_data pc =>
      let content := clean_text pc.2
      if content = "" then all_data else all_data ++ [mainRecord pc.1 content]) []
  (all_data, !all_data.isEmpty)

example :
    main_process_pdfs_model (fun _ => ReadOutcome.pages [some "a b"]) ["d.pdf"] =
      ([⟨"d.pdf", "a b", "a b", "", "a b"⟩], true) := rfl

example :
    main_process_pdfs_model (fun _ => ReadOutcome.pages [some "  "]) ["d.pdf"] =
      ([], false) := rfl

/-! Lemmas about stripping and substring preservation. -/

theorem dropWhile_eq_self_of_head (p : Char → Bool) (l : List Char)
    (h : ∀ hl : l ≠ [], p (l.head hl) = false) : l.dropWhile p = l := by
  cases l with
  | nil => rfl
  | cons c cs =>
      have hc : p c = false := h (List.cons_ne_nil c cs)
      simp [List.dropWhile_cons, hc]

theorem dropWhile_stripData (l : List Char) :
    (stripData l).dropWhile pyIsSpace = stripData l := by
  apply dropWhile_eq_self_of_head
  intro hne
  have hpre : stripData l <+: l.dropWhile pyIsSpace :=
    List.rdropWhile_prefix pyIsSpace (l.dropWhile pyIsSpace)
  rw [hpre.head hne]
  exact List.head_dropWhile_not pyIsSpace l (hpre.ne_nil hne)

theorem stripData_idem (l : List Char) : stripData (stripData l) = stripData l := by
  have h1 := dropWhile_stripData l
  simp only [stripData] at h1 ⊢
  rw [h1]
  exact List.rdropWhile_idempotent pyIsSpace _

theorem substr_dropWhile_of_head (p : Char → Bool) {c : Char} (kt : List Char)
    (hc : p c = false) :
    ∀ s t : List Char, (c :: kt) <:+: ((s ++ (c :: kt) ++ t).dropWhile p) := by
  intro s
  induction s with
  | nil =>
      intro t
      rw [List.nil_append, List.cons_append, List.dropWhile_cons, if_neg (by simp [hc])]
      exact ⟨[], t, by simp⟩
  | cons x s ih =>
      intro t
      simp only [List.cons_append, List.dropWhile_cons]
      by_cases hx : p x
      · rw [if_pos hx]
        simpa [List.cons_append] using ih t
      · rw [if_neg hx]
        exact ⟨x :: s, t, by simp⟩

theorem substr_dropWhile (p : Char → Bool) {kw l : List Char} (hne : kw ≠ [])
    (hall : ∀ c ∈ kw, p c = false) (h : kw <:+: l) : kw <:+: l.dropWhile p := by
  obtain ⟨s, t, rfl⟩ := h
  cases kw with
  | nil => exact absurd rfl hne
  | cons c kt => exact substr_dropWhile_of_head p kt (hall c (by simp)) s t

theorem substr_rdropWhile (p : Char → Bool) {kw l : List Char} (hne : kw ≠ [])
    (hall : ∀ c ∈ kw, p c = false) (h : kw <:+: l) : kw <:+: l.rdropWhile p := by
  have hne' : kw.reverse ≠ [] := by simpa using hne
  have hall' : ∀ c ∈ kw.reverse, p c = false := fun c hc => hall c (by simpa using hc)
  have h2 : kw.reverse <:+: l.reverse.dropWhile p :=
    substr_dropWhile p hne' hall' h.reverse
  have h3 := h2.reverse
  simpa [List.rdropWhile] using h3

theorem substr_stripData {kw l : List Char} (hne : kw ≠ [])
    (hall : ∀ c ∈ kw, pyIsSpace c = false) (h : kw <:+: l) : kw <:+: stripData l := by
  unfold stripData
  exact substr_rdropWhile _ hne hall (substr_dropWhile _ hne hall h)

theorem expected_keyword_ne_nil : expected_keyword.data ≠ [] := by decide

theorem expected_keyword_no_space :
    ∀ c ∈ expected_keyword.data, pyIsSpace c = false := by decide

/-! Claim theorems about the validator. -/

/-- C7: for every path and text, `preprocess_content` rejects (raises
`InvalidContentError`) exactly when the text is empty or does not
contain the required marker `"expected_keyword"`, and on acceptance it
returns the text with leading and trailing whitespace stripped. -/
theorem preprocess_rejects_iff_and_trims (file_path content : String) :
    ((preprocess_content file_path content).toOption = none ↔
      content = "" ∨ ¬ expected_keyword.data <:+: content.data) ∧
    ∀ accepted, preprocess_content file_path content = Except.ok accepted →
      accepted = pyStrip content := by
  constructor
  · unfold preprocess_content
    by_cases hcond : content = "" ∨ ¬ expected_keyword.data <:+: content.data
    · rw [if_pos hcond]
      simpa [Except.toOption] using hcond
    · rw [if_neg hcond]
      simpa [Except.toOption] using hcond
  · intro accepted hacc
    unfold preprocess_content at hacc
    by_cases hcond : content = "" ∨ ¬ expected_keyword.data <:+: content.data
    · rw [if_pos hcond] at hacc
      exact absurd hacc (by simp)
    · rw [if_neg hcond] at hacc
      injection hacc with h
      exact h.symm

/-- Witness for C7 on a concrete input: the text
`" expected_keyword body "` is accepted and comes back stripped. -/
theorem preprocess_rejects_iff_and_trims_witness :
    "expected_keyword body" = pyStrip " expected_keyword body " :=
  (preprocess_rejects_iff_and_trims "w.pdf" " expected_keyword body ").2
    "expected_keyword body" rfl

/-- C9: validation is idempotent — re-validating content that
`preprocess_content` has already accepted succeeds and returns the same
content (stripping is idempotent and cannot remove the marker). -/
theorem preprocess_idempotent (file_path content accepted : String)
    (h : preprocess_content file_path content = Except.ok accepted) :
    preprocess_content file_path accepted = Except.ok accepted := by
  unfold preprocess_content at h
  by_cases hcond : content = "" ∨ ¬ expected_keyword.data <:+: content.data
  · rw [if_pos hcond] at h
    exact absurd h (by simp)
  · rw [if_neg hcond] at h
    injection h with h'
    have hacc : accepted = pyStrip content := h'.symm
    push_neg at hcond
    obtain ⟨hne_c, hinf⟩ := hcond
    have hinf' : expected_keyword.data <:+: accepted.data := by
      rw [hacc]
      exact substr_stripData expected_keyword_ne_nil expected_keyword_no_space hinf
    have hne_a : accepted ≠ "" := by
      intro h0
      rw [h0] at hinf'
      exact expected_keyword_ne_nil (List.eq_nil_of_infix_nil hinf')
    have hstrip : pyStrip accepted = accepted := by
      rw [hacc]
      show (⟨stripData (stripData content.data)⟩ : String) = ⟨stripData content.data⟩
      rw [stripData_idem]
    rw [preprocess_content, if_neg (by push_neg; exact ⟨hne_a, hinf'⟩), hstrip]

/-- Witness for C9 on a concrete input. -/
theorem preprocess_idempotent_witness :
    preprocess_content "w.pdf" "expected_keyword body" =
      Except.ok "expected_keyword body" :=
  preprocess_idempotent "w.pdf" "  expected_keyword body  " "expected_keyword body" rfl

/-! Claim theorem about the text cleaner. -/

theorem mem_replaceRunsAux (p : Char → Bool) :
    ∀ (l : List Char) (inRun : Bool) (c : Char),
      c ∈ replaceRunsAux p inRun l → c = ' ' ∨ p c = false := by
  intro l
  induction l with
  | nil => intro inRun c hc; simp [replaceRunsAux] at hc
  | cons x xs ih =>
      intro inRun c hc
      simp only [replaceRunsAux] at hc
      by_cases hx : p x = true
      · rw [if_pos hx] at hc
        cases inRun with
        | true =>
            rw [if_pos rfl] at hc
            exact ih true c hc
        | false =>
            rw [if_neg (by simp)] at hc
            rcases List.mem_cons.mp hc with rfl | hmem
            · exact Or.inl rfl
            · exact ih true c hmem
      · rw [if_neg hx] at hc
        rcases List.mem_cons.mp hc with rfl | hmem
        · exact Or.inr (by simpa using hx)
        · exact ih false c hmem

/-- C10: every string produced by `clean_text` is pure ASCII — the final
substitution replaces each maximal run of characters above `0x7F` with a
single space. -/
theorem clean_text_ascii (content : String) :
    (clean_text content).data.all (fun c => decide (c.val ≤ 0x7F)) = true := by
  rw [List.all_eq_true]
  intro c hc
  have hc' : c ∈ replaceRunsAux (fun c => decide (0x7F < c.val)) false
      (replaceRuns pyIsSpace (pyStrip content).data) := by
    simpa [clean_text, replaceRuns] using hc
  rcases mem_replaceRunsAux (fun c => decide (0x7F < c.val)) _ false c hc' with rfl | hm
  · decide
  · exact decide_eq_true (UInt32.not_lt.mp (of_decide_eq_false hm))

/-! Lemmas about the two concurrent reading loops. -/

theorem foldl_append_singleton {α β : Type} (g : α → β) (l : List α) (acc : List β) :
    l.foldl (fun a x => a ++ [g x]) acc = acc ++ l.map g := by
  induction l generalizing acc with
  | nil => simp
  | cons x xs ih => simp [ih]

theorem collectPageTexts_eq_map (ps : List (Option String)) :
    collectPageTexts ps = ps.map pageTextOrEmpty := by
  unfold collectPageTexts
  simpa using foldl_append_singleton pageTextOrEmpty ps []

/-- The single entry each future contributes in the `processor.py`
concurrent loop: the path, paired with the content on success and `None`
when `future.result()` re-raised. -/
def processorEntry (env : String → ReadOutcome) (pdf_file : String) : PdfEntry :=
  ⟨pdf_file, (processor_read_pdf_file env pdf_file).toOption⟩

theorem processor_concurrently_eq_map (env : String → ReadOutcome)
    (completed : List String) :
    processor_read_pdfs_concurrently env completed =
      completed.map (processorEntry env) := by
  have hstep : (fun (pdf_contents : List PdfEntry) (pdf_file : String) =>
      match processor_read_pdf_file env pdf_file with
      | .ok content => pdf_contents ++ [⟨pdf_file, some content⟩]
      | .error _ => pdf_contents ++ [⟨pdf_file, none⟩])
      = fun pdf_contents pdf_file => pdf_contents ++ [processorEntry env pdf_file] := by
    funext a f
    cases h : processor_read_pdf_file env f <;>
      simp [processorEntry, h, Except.toOption]
  unfold processor_read_pdfs_concurrently
  rw [hstep]
  simpa using foldl_append_singleton (processorEntry env) completed []

/-- The optional pair each future contributes in the `file_utils.py`
concurrent loop: present exactly when the read produced non-empty text. -/
def fileUtilsItem (env : String → ReadOutcome) (file : String) :
    Option (String × String) :=
  match fileUtils_read_pdf_file env file with
  | some content => if content = "" then none else some (file, content)
  | none => none

theorem fileUtils_concurrently_eq_filterMap (env : String → ReadOutcome)
    (completed : List String) :
    fileUtils_read_pdfs_concurrently env completed =
      completed.filterMap (fileUtilsItem env) := by
  have aux : ∀ (l : List String) (acc : List (String × String)),
      l.foldl (fun pdf_contents file =>
        match fileUtils_read_pdf_file env file with
        | some content =>
            if content = "" then pdf_contents else pdf_contents ++ [(file, content)]
        | none => pdf_contents) acc = acc ++ l.filterMap (fileUtilsItem env) := by
    intro l
    induction l with
    | nil => intro acc; simp
    | cons f fs ih =>
        intro acc
        rw [List.foldl_cons, List.filterMap_cons]
        cases h : fileUtils_read_pdf_file env f with
        | none => simp [fileUtilsItem, h, ih]
        | some content =>
            by_cases hc : content = ""
            · simp [fileUtilsItem, h, hc, ih]
            · simp [fileUtilsItem, h, hc, ih]
  unfold fileUtils_read_pdfs_concurrently
  simpa using aux completed []

theorem fileUtils_map_fst (env : String → ReadOutcome) (completed : List String) :
    (fileUtils_read_pdfs_concurrently env completed).map Prod.fst =
      completed.filter (hasContent env) := by
  rw [fileUtils_concurrently_eq_filterMap]
  induction completed with
  | nil => simp
  | cons f fs ih =>
      rw [List.filterMap_cons, List.filter_cons]
      cases h : fileUtils_read_pdf_file env f with
      | none => simp [fileUtilsItem, hasContent, h, ih]
      | some content =>
          by_cases hc : content = ""
          · simp [fileUtilsItem, hasContent, h, hc, ih]
          · simp [fileUtilsItem, hasContent, h, hc, ih]

/-! Claim theorems about the concurrent ingestion stage. -/

/-- C1 counterexample: the `file_utils.py` version of
`read_pdfs_concurrently` does not produce one result per input path —
for a single path whose read fails it produces zero results instead of
one, contradicting the cardinality contract as stated. -/
theorem ingest_cardinality_counterexample :
    ¬ ((fileUtils_read_pdfs_concurrently (fun _ => ReadOutcome.notFound)
        ["a.pdf"]).length = ["a.pdf"].length) := by decide

/-- C1 (amended): for every completion order (any permutation of the
submitted paths), the `processor.py` version of `read_pdfs_concurrently`
produces exactly N results whose path components are a permutation of
the inputs (no duplicates, no omissions); the `file_utils.py` version
instead produces exactly one result per path whose read succeeds with
non-empty content, dropping failed and empty reads. -/
theorem ingest_cardinality (env : String → ReadOutcome)
    (pdf_files completed : List String) (hperm : completed.Perm pdf_files) :
    (processor_read_pdfs_concurrently env completed).length = pdf_files.length ∧
    ((processor_read_pdfs_concurrently env completed).map
        PdfEntry.file_name).Perm pdf_files ∧
    (fileUtils_read_pdfs_concurrently env completed).map Prod.fst =
      completed.filter (hasContent env) := by
  refine ⟨?_, ?_, fileUtils_map_fst env completed⟩
  · rw [processor_concurrently_eq_map, List.length_map, hperm.length_eq]
  · rw [processor_concurrently_eq_map, List.map_map]
    have hid : (PdfEntry.file_name ∘ processorEntry env) = id := by
      funext f; rfl
    rw [hid, List.map_id]
    exact hperm

/-- Witness for C1 at a concrete two-path batch delivered in reversed
completion order. -/
theorem ingest_cardinality_witness :
    (processor_read_pdfs_concurrently
        (fun _ => ReadOutcome.pages [some "expected_keyword"])
        ["a.pdf", "b.pdf"]).length = ["b.pdf", "a.pdf"].length ∧
    ((processor_read_pdfs_concurrently
        (fun _ => ReadOutcome.pages [some "expected_keyword"])
        ["a.pdf", "b.pdf"]).map PdfEntry.file_name).Perm ["b.pdf", "a.pdf"] ∧
    (fileUtils_read_pdfs_concurrently
        (fun _ => ReadOutcome.pages [some "expected_keyword"])
        ["a.pdf", "b.pdf"]).map Prod.fst =
      ["a.pdf", "b.pdf"].filter
        (hasContent (fun _ => ReadOutcome.pages [some "expected_keyword"])) :=
  ingest_cardinality (fun _ => ReadOutcome.pages [some "expected_keyword"])
    ["b.pdf", "a.pdf"] ["a.pdf", "b.pdf"] (by decide)

/-! Lemmas about the aggregation loop. -/

theorem batch_outcome_sum_step (now : String) (br : BatchResult) (e : PdfEntry) :
    (aggStep now br e).succeeded + (aggStep now br e).skippedEmpty +
      (aggStep now br e).rejectedInvalid + (aggStep now br e).failedRead =
    br.succeeded + br.skippedEmpty + br.rejectedInvalid + br.failedRead + 1 := by
  obtain ⟨fname, ct⟩ := e
  cases ct with
  | none =>
      show br.succeeded + br.skippedEmpty + br.rejectedInvalid + (br.failedRead + 1) =
        br.succeeded + br.skippedEmpty + br.rejectedInvalid + br.failedRead + 1
      omega
  | some content =>
      rcases eq_or_ne content "" with hc | hc
      · subst hc
        show br.succeeded + (br.skippedEmpty + 1) + br.rejectedInvalid + br.failedRead =
          br.succeeded + br.skippedEmpty + br.rejectedInvalid + br.failedRead + 1
        omega
      · cases h : preprocess_content fname content with
        | ok pc =>
            have h1 : aggStep now br ⟨fname, some content⟩ =
                { br with
                  records := br.records ++ [⟨pathName fname, pc, now⟩],
                  succeeded := br.succeeded + 1 } := by
              simp [aggStep, hc, h]
            rw [h1]
            show (br.succeeded + 1) + br.skippedEmpty + br.rejectedInvalid + br.failedRead =
              br.succeeded + br.skippedEmpty + br.rejectedInvalid + br.failedRead + 1
            omega
        | error err =>
            have h1 : aggStep now br ⟨fname, some content⟩ =
                { br with rejectedInvalid := br.rejectedInvalid + 1 } := by
              simp [aggStep, hc, h]
            rw [h1]
            show br.succeeded + br.skippedEmpty + (br.rejectedInvalid + 1) + br.failedRead =
              br.succeeded + br.skippedEmpty + br.rejectedInvalid + br.failedRead + 1
            omega

theorem batch_records_succ_step (now : String) (br : BatchResult) (e : PdfEntry) :
    (aggStep now br e).records.length + br.succeeded =
      (aggStep now br e).succeeded + br.records.length := by
  obtain ⟨fname, ct⟩ := e
  cases ct with
  | none =>
      show br.records.length + br.succeeded = br.succeeded + br.records.length
      omega
  | some content =>
      rcases eq_or_ne content "" with hc | hc
      · subst hc
        show br.records.length + br.succeeded = br.succeeded + br.records.length
        omega
      · cases h : preprocess_content fname content with
        | ok pc =>
            have h1 : aggStep now br ⟨fname, some content⟩ =
                { br with
                  records := br.records ++ [⟨pathName fname, pc, now⟩],
                  succeeded := br.succeeded + 1 } := by
              simp [aggStep, hc, h]
            rw [h1]
            show (br.records ++ [(⟨pathName fname, pc, now⟩ : ValidatedRecord)]).length +
                br.succeeded = (br.succeeded + 1) + br.records.length
            rw [List.length_append]
            simp only [List.length_cons, List.length_nil]
            omega
        | error err =>
            have h1 : aggStep now br ⟨fname, some content⟩ =
                { br with rejectedInvalid := br.rejectedInvalid + 1 } := by
              simp [aggStep, hc, h]
            rw [h1]
            show br.records.length + br.succeeded = br.succeeded + br.records.length
            omega

theorem aggregate_outcome_sum (now : String) (entries : List PdfEntry) :
    (aggregate now entries).succeeded + (aggregate now entries).skippedEmpty +
      (aggregate now entries).rejectedInvalid + (aggregate now entries).failedRead =
      entries.length := by
  have aux : ∀ (l : List PdfEntry) (init : BatchResult),
      (l.foldl (aggStep now) init).succeeded + (l.foldl (aggStep now) init).skippedEmpty +
        (l.foldl (aggStep now) init).rejectedInvalid +
        (l.foldl (aggStep now) init).failedRead =
        init.succeeded + init.skippedEmpty + init.rejectedInvalid + init.failedRead +
          l.length := by
    intro l
    induction l with
    | nil => intro init; simp
    | cons e es ih =>
        intro init
        rw [List.foldl_cons, List.length_cons]
        have h1 := batch_outcome_sum_step now init e
        have h2 := ih (aggStep now init e)
        omega
  have h := aux entries BatchResult.initial
  simpa [aggregate, BatchResult.initial] using h

theorem aggregate_records_eq_succeeded (now : String) (entries : List PdfEntry) :
    (aggregate now entries).records.length = (aggregate now entries).succeeded := by
  have aux : ∀ (l : List PdfEntry) (init : BatchResult),
      (l.foldl (aggStep now) init).records.length + init.succeeded =
        (l.foldl (aggStep now) init).succeeded + init.records.length := by
    intro l
    induction l with
    | nil => intro init; simp [Nat.add_comm]
    | cons e es ih =>
        intro init
        rw [List.foldl_cons]
        have h1 := batch_records_succ_step now init e
        have h2 := ih (aggStep now init e)
        omega
  have h := aux entries BatchResult.initial
  have hs : BatchResult.initial.succeeded = 0 := rfl
  have hr : BatchResult.initial.records.length = 0 := rfl
  unfold aggregate
  omega

/-! Claim theorems about the batch run. -/

/-- C3: every submitted path falls into exactly one of the four outcome
classes of the aggregation loop, so the four counters of the resulting
batch always sum to the number of submitted paths, for every completion
order. -/
theorem batch_outcome_partition (env : String → ReadOutcome) (now : String)
    (pdf_files completed : List String) (hperm : completed.Perm pdf_files) :
    (aggregate now (processor_read_pdfs_concurrently env completed)).succeeded +
      (aggregate now (processor_read_pdfs_concurrently env completed)).skippedEmpty +
      (aggregate now (processor_read_pdfs_concurrently env completed)).rejectedInvalid +
      (aggregate now (processor_read_pdfs_concurrently env completed)).failedRead =
      pdf_files.length := by
  have h1 := aggregate_outcome_sum now (processor_read_pdfs_concurrently env completed)
  have h2 : (processor_read_pdfs_concurrently env completed).length = pdf_files.length := by
    rw [processor_concurrently_eq_map, List.length_map, hperm.length_eq]
  omega

/-- Witness for C3 on a concrete two-path batch: one path reads
successfully and validates, the other fails to read. -/
theorem batch_outcome_partition_witness :
    (aggregate "t0" (processor_read_pdfs_concurrently
        (fun f => if f = "a.pdf" then ReadOutcome.pages [some "expected_keyword"]
          else ReadOutcome.notFound) ["a.pdf", "b.pdf"])).succeeded +
      (aggregate "t0" (processor_read_pdfs_concurrently
        (fun f => if f = "a.pdf" then ReadOutcome.pages [some "expected_keyword"]
          else ReadOutcome.notFound) ["a.pdf", "b.pdf"])).skippedEmpty +
      (aggregate "t0" (processor_read_pdfs_concurrently
        (fun f => if f = "a.pdf" then ReadOutcome.pages [some "expected_keyword"]
          else ReadOutcome.notFound) ["a.pdf", "b.pdf"])).rejectedInvalid +
      (aggregate "t0" (processor_read_pdfs_concurrently
        (fun f => if f = "a.pdf" then ReadOutcome.pages [some "expected_keyword"]
          else ReadOutcome.notFound) ["a.pdf", "b.pdf"])).failedRead = 2 :=
  batch_outcome_partition
    (fun f => if f = "a.pdf" then ReadOutcome.pages [some "expected_keyword"]
      else ReadOutcome.notFound)
    "t0" ["b.pdf", "a.pdf"] ["a.pdf", "b.pdf"] (by decide)

/-- C8: in both `process_pdfs` implementations, a batch whose success
count is zero takes the nothing-to-persist warning branch and never
invokes `save_output`: in `src/processor.py` zero validated successes
leave `all_data` empty (one record is appended per success), and in
`src/main.py` an empty `all_data` likewise fails the `if all_data:`
gate. -/
theorem no_persist_on_zero_success (env env2 : String → ReadOutcome) (now : String)
    (completed completed2 : List String)
    (h : (process_pdfs_model env now completed).1.succeeded = 0)
    (h2 : (main_process_pdfs_model env2 completed2).1.length = 0) :
    (process_pdfs_model env now completed).2 = false ∧
    (main_process_pdfs_model env2 completed2).2 = false := by
  constructor
  · have h' : (aggregate now (processor_read_pdfs_concurrently env completed)).succeeded
        = 0 := h
    show (!(aggregate now
        (processor_read_pdfs_concurrently env completed)).records.isEmpty) = false
    have hr := aggregate_records_eq_succeeded now
      (processor_read_pdfs_concurrently env completed)
    rw [h'] at hr
    rw [List.length_eq_zero.mp hr]
    rfl
  · show (!(main_process_pdfs_model env2 completed2).1.isEmpty) = false
    rw [List.length_eq_zero.mp h2]
    rfl

/-- Witness for C8: for `processor.py`, a batch whose single read fails
has zero successes and does not persist; for `main.py`, a batch whose
single document reads as whitespace-only text cleans to empty, leaves
`all_data` empty and does not persist. -/
theorem no_persist_on_zero_success_witness :
    (process_pdfs_model (fun _ => ReadOutcome.notFound) "t0" ["a.pdf"]).2 = false ∧
    (main_process_pdfs_model (fun _ => ReadOutcome.pages [some "  "])
        ["a.pdf"]).2 = false :=
  no_persist_on_zero_success (fun _ => ReadOutcome.notFound)
    (fun _ => ReadOutcome.pages [some "  "]) "t0" ["a.pdf"] ["a.pdf"] rfl rfl

/-! Claim theorems about the document reader. -/

/-- C2 counterexample: on a malformed document, the `processor.py`
version of `read_pdf_file` does not return an ordinary result — it
raises a `PDFProcessingError` past its own boundary (`Except.error`
models the raise). -/
theorem reader_raises_counterexample :
    processor_read_pdf_file (fun _ => ReadOutcome.pdfReadError "bad xref") "a.pdf" =
      Except.error ⟨"Failed to read PDF file: a.pdf"⟩ := rfl

/-- C2 (amended): every failure is caught inside `read_pdf_file`, but
the `processor.py` version re-raises each one as a `PDFProcessingError`
whose message names the offending path (so failures do escape its
boundary, as a single wrapped exception type), while the
`file_utils.py` version never raises and returns `None`, carrying no
error kind at all. -/
theorem reader_failure_channels (pdf_file msg : String) :
    (processor_read_pdf_file (fun _ => ReadOutcome.pdfReadError msg) pdf_file =
      Except.error ⟨"Failed to read PDF file: " ++ pdf_file⟩) ∧
    (processor_read_pdf_file (fun _ => ReadOutcome.memoryError msg) pdf_file =
      Except.error ⟨"Memory error processing PDF file: " ++ pdf_file⟩) ∧
    (processor_read_pdf_file (fun _ => ReadOutcome.otherError msg) pdf_file =
      Except.error ⟨"An unknown error occurred while reading the PDF: " ++ pdf_file⟩) ∧
    (processor_read_pdf_file (fun _ => ReadOutcome.permissionError) pdf_file =
      Except.error ⟨"An unknown error occurred while reading the PDF: " ++ pdf_file⟩) ∧
    (processor_read_pdf_file (fun _ => ReadOutcome.notFound) pdf_file =
      Except.error ⟨"An unknown error occurred while reading the PDF: " ++ pdf_file⟩) ∧
    (fileUtils_read_pdf_file (fun _ => ReadOutcome.pdfReadError msg) pdf_file = none) ∧
    (fileUtils_read_pdf_file (fun _ => ReadOutcome.memoryError msg) pdf_file = none) ∧
    (fileUtils_read_pdf_file (fun _ => ReadOutcome.otherError msg) pdf_file = none) ∧
    (fileUtils_read_pdf_file (fun _ => ReadOutcome.permissionError) pdf_file = none) ∧
    (fileUtils_read_pdf_file (fun _ => ReadOutcome.notFound) pdf_file = none) :=
  ⟨rfl, rfl, rfl, rfl, rfl, rfl, rfl, rfl, rfl, rfl⟩

/-- C6 counterexample: the `file_utils.py` reader concatenates per-page
text with no separator and no trim, so on pages `["a", "b"]` it returns
`"ab"`, not the claimed space-joined, trimmed `"a b"`. -/
theorem page_concatenation_counterexample :
    ¬ (fileUtils_read_pdf_file (fun _ => ReadOutcome.pages [some "a", some "b"])
        "d.pdf" =
      some (pyStrip (String.intercalate " " ["a", "b"]))) := by decide

/-- C6 (amended): for a readable document the `processor.py` reader
returns the per-page texts joined in page order with a single space and
stripped of leading/trailing whitespace; the `file_utils.py` reader
returns them concatenated directly in page order, with no separator and
no trim. -/
theorem page_concatenation (pdf_file : String) (ps : List (Option String)) :
    processor_read_pdf_file (fun _ => ReadOutcome.pages ps) pdf_file =
      Except.ok (pyStrip (String.intercalate " " (ps.map pageTextOrEmpty))) ∧
    fileUtils_read_pdf_file (fun _ => ReadOutcome.pages ps) pdf_file =
      some (String.join (ps.map pageTextOrEmpty)) := by
  constructor
  · show Except.ok (pyStrip (String.intercalate " " (collectPageTexts ps))) =
      Except.ok (pyStrip (String.intercalate " " (ps.map pageTextOrEmpty)))
    rw [collectPageTexts_eq_map]
  · have hjoin : String.join (ps.map pageTextOrEmpty) =
        ps.foldl (fun full_text p => full_text ++ pageTextOrEmpty p) "" :=
      List.foldl_map pageTextOrEmpty (fun r s => r ++ s) ps ""
    show some (ps.foldl (fun full_text p => full_text ++ pageTextOrEmpty p) "") =
      some (String.join (ps.map pageTextOrEmpty))
    rw [hjoin]

/-! Claim theorems about the output stage. -/

/-- C4 counterexample: when `open` fails with a permission error,
`save_output` neither returns a failure value nor lets an exception
escape — the failure is logged and swallowed, so no `PersistenceFailure`
reaches the caller. -/
theorem persist_report_counterexample :
    ¬ (((save_output (some "old") "new" SaveOutcome.openPermissionError).returnedFailure
        = true) ∨
      (save_output (some "old") "new" SaveOutcome.openPermissionError).raised ≠ none) := by
  decide

/-- C4 (amended): `save_output` reports no failure to its caller for
permission or serialization errors — both are logged and the function
returns normally; only a directory-creation failure escapes, as the raw
exception rather than a `PersistenceFailure`; and no variant ever
retries (at most one write attempt). -/
theorem persist_failures_swallowed (prevFile : Option String)
    (serialized msg truncText : String) :
    ((save_output prevFile serialized SaveOutcome.openPermissionError).returnedFailure
        = false ∧
      (save_output prevFile serialized SaveOutcome.openPermissionError).raised = none ∧
      (save_output prevFile serialized SaveOutcome.openPermissionError).loggedError
        = true) ∧
    ((save_output prevFile serialized (SaveOutcome.dumpError truncText)).returnedFailure
        = false ∧
      (save_output prevFile serialized (SaveOutcome.dumpError truncText)).raised
        = none ∧
      (save_output prevFile serialized (SaveOutcome.dumpError truncText)).loggedError
        = true) ∧
    (save_output prevFile serialized (SaveOutcome.makedirsError msg)).raised = some msg ∧
    ∀ outcome, (save_output prevFile serialized outcome).writeAttempts ≤ 1 := by
  refine ⟨⟨rfl, rfl, rfl⟩, ⟨rfl, rfl, rfl⟩, rfl, ?_⟩
  intro outcome
  cases outcome <;> simp [save_output]

/-- C5 counterexample: on a permission error the pre-existing output
file is indeed left unchanged, but no `PersistenceFailure` is returned
to the caller, so the claim's conjunction fails. -/
theorem persist_permission_counterexample :
    ¬ ((save_output (some "prior") "fresh" SaveOutcome.openPermissionError).returnedFailure
        = true ∧
      (save_output (some "prior") "fresh" SaveOutcome.openPermissionError).fileAfter
        = some "prior") := by
  decide

/-- C5 (amended): when `open` fails with a permission error,
`save_output` leaves the previously-existing output file untouched (no
partial overwrite), but returns normally with no failure indication —
the error is only logged. -/
theorem persist_permission_preserves_file (prevFile : Option String)
    (serialized : String) :
    (save_output prevFile serialized SaveOutcome.openPermissionError).fileAfter
        = prevFile ∧
    (save_output prevFile serialized SaveOutcome.openPermissionError).returnedFailure
        = false ∧
    (save_output prevFile serialized SaveOutcome.openPermissionError).raised = none ∧
    (save_output prevFile serialized SaveOutcome.openPermissionError).loggedError
        = true :=
  ⟨rfl, rfl, rfl, rfl⟩

end PdfPipeline
